import Mathlib

/- Verification of the antigravity-sync synchronization engine against its
   design document.  The definitions below are a shallow embedding of
   GitService (src/services/GitService.ts) and SyncService
   (src/services/SyncService.ts): pure decision logic is translated to Lean
   functions, stateful git interactions are modelled by explicit state
   passing over an environment that records the outcome of each underlying
   git invocation, and JavaScript numbers are modelled by exact arithmetic
   over Nat, Int and the rationals. -/

/-! ## ConflictResolver: the binary-conflict decision heuristic -/

/-- Outcome of conflict resolution for a single path: which side survives. -/
inductive Resolution
  | KeepLocal
  | KeepRemote
deriving DecidableEq, Repr

/-- The constant SIZE_DIFF_THRESHOLD = 0.2 of GitService.resolveBinaryConflict,
also appearing as the literal 0.2 in handleSmartMerge step 6. -/
def SIZE_DIFF_THRESHOLD : ℚ := 1 / 5

/-- Embedding of the computation
sizeDiffRatio = maxSize > 0 ? abs(localSize - remoteSize) / maxSize : 0
with maxSize = max(localSize, remoteSize), shared verbatim by
GitService.resolveBinaryConflict and handleSmartMerge step 6.
JavaScript float division is modelled by exact division in the rationals. -/
def sizeDiffFrac (localSize remoteSize : ℕ) : ℚ :=
  if max localSize remoteSize > 0 then
    |(localSize : ℚ) - (remoteSize : ℚ)| / ((max localSize remoteSize : ℕ) : ℚ)
  else 0

/-- Decision core shared by GitService.resolveBinaryConflict and by
handleSmartMerge step 6: keepLocal = localSize >= remoteSize when the size
difference quotient strictly exceeds the threshold, keepLocal =
localMtime >= remoteMtime otherwise.  Modification times are in
milliseconds since the epoch (JavaScript Date comparison). -/
def resolveBinaryConflict (localSize localMtime remoteSize remoteMtime : ℕ) :
    Resolution :=
  if sizeDiffFrac localSize remoteSize > SIZE_DIFF_THRESHOLD then
    if remoteSize ≤ localSize then Resolution.KeepLocal else Resolution.KeepRemote
  else
    if remoteMtime ≤ localMtime then Resolution.KeepLocal else Resolution.KeepRemote

/-- C1: for every pair of sizes whose difference quotient strictly exceeds
0.20, the resolver picks the strictly larger side (KeepLocal when the local
size is larger, KeepRemote when the remote size is larger) and the
timestamps are never consulted; and when the quotient is exactly 0.20 the
size branch is not taken, the timestamp branch decides. -/
theorem C1_size_branch_authoritative :
    (∀ localSize remoteSize t₁ t₂ u₁ u₂ : ℕ,
        sizeDiffFrac localSize remoteSize > SIZE_DIFF_THRESHOLD →
        (remoteSize < localSize →
          resolveBinaryConflict localSize t₁ remoteSize t₂ = Resolution.KeepLocal) ∧
        (localSize < remoteSize →
          resolveBinaryConflict localSize t₁ remoteSize t₂ = Resolution.KeepRemote) ∧
        resolveBinaryConflict localSize t₁ remoteSize t₂ =
          resolveBinaryConflict localSize u₁ remoteSize u₂) ∧
    (∀ localSize remoteSize t₁ t₂ : ℕ,
        sizeDiffFrac localSize remoteSize = SIZE_DIFF_THRESHOLD →
        resolveBinaryConflict localSize t₁ remoteSize t₂ =
          (if t₂ ≤ t₁ then Resolution.KeepLocal else Resolution.KeepRemote)) := by
  constructor
  · intro localSize remoteSize t₁ t₂ u₁ u₂ h
    refine ⟨?_, ?_, ?_⟩
    · intro hlt
      simp only [resolveBinaryConflict, if_pos h, if_pos (Nat.le_of_lt hlt)]
    · intro hlt
      simp only [resolveBinaryConflict, if_pos h, if_neg (Nat.not_le_of_lt hlt)]
    · simp only [resolveBinaryConflict, if_pos h]
  · intro localSize remoteSize t₁ t₂ h
    have hne : ¬ sizeDiffFrac localSize remoteSize > SIZE_DIFF_THRESHOLD :=
      not_lt.mpr (le_of_eq h)
    simp only [resolveBinaryConflict, if_neg hne]

/-- Auxiliary concrete evaluations of the size difference quotient, used to
discharge the hypotheses of the resolver theorems at concrete inputs. -/
theorem sizeDiffFrac_examples :
    sizeDiffFrac 100 79 = 21 / 100 ∧ sizeDiffFrac 79 100 = 21 / 100 ∧
    sizeDiffFrac 100 80 = 1 / 5 ∧ sizeDiffFrac 100 81 = 19 / 100 := by
  refine ⟨?_, ?_, ?_, ?_⟩ <;>
    · rw [sizeDiffFrac]
      norm_num

/-- Witness for C1: at sizes (100, 79) the quotient is 0.21 and the larger
side wins on both orientations; at sizes (100, 80) the quotient is exactly
0.20 and the later timestamp (here the remote one) wins. -/
theorem C1_size_branch_authoritative_witness :
    resolveBinaryConflict 100 1 79 9 = Resolution.KeepLocal ∧
    resolveBinaryConflict 79 9 100 1 = Resolution.KeepRemote ∧
    resolveBinaryConflict 100 1 80 9 = Resolution.KeepRemote := by
  refine ⟨?_, ?_, ?_⟩
  · exact (C1_size_branch_authoritative.1 100 79 1 9 0 0
      (by rw [sizeDiffFrac_examples.1, SIZE_DIFF_THRESHOLD]; norm_num)).1 (by norm_num)
  · exact (C1_size_branch_authoritative.1 79 100 9 1 0 0
      (by rw [sizeDiffFrac_examples.2.1, SIZE_DIFF_THRESHOLD]; norm_num)).2.1 (by norm_num)
  · rw [C1_size_branch_authoritative.2 100 80 1 9
      (by rw [sizeDiffFrac_examples.2.2.1, SIZE_DIFF_THRESHOLD])]
    norm_num

/-- C2: for every pair of sizes whose difference quotient is at most 0.20,
the resolver picks the side with the later timestamp, and a timestamp tie
favors the local side. -/
theorem C2_timestamp_branch (localSize remoteSize t₁ t₂ : ℕ)
    (h : sizeDiffFrac localSize remoteSize ≤ SIZE_DIFF_THRESHOLD) :
    (t₂ < t₁ →
      resolveBinaryConflict localSize t₁ remoteSize t₂ = Resolution.KeepLocal) ∧
    (t₁ < t₂ →
      resolveBinaryConflict localSize t₁ remoteSize t₂ = Resolution.KeepRemote) ∧
    (t₁ = t₂ →
      resolveBinaryConflict localSize t₁ remoteSize t₂ = Resolution.KeepLocal) := by
  have hne : ¬ sizeDiffFrac localSize remoteSize > SIZE_DIFF_THRESHOLD :=
    not_lt.mpr h
  refine ⟨?_, ?_, ?_⟩
  · intro hlt
    simp only [resolveBinaryConflict, if_neg hne, if_pos (Nat.le_of_lt hlt)]
  · intro hlt
    simp only [resolveBinaryConflict, if_neg hne, if_neg (Nat.not_le_of_lt hlt)]
  · intro heq
    simp only [resolveBinaryConflict, if_neg hne, if_pos (le_of_eq heq.symm)]

/-- Witness for C2: with sizes (100, 81) the quotient 0.19 is below the
threshold and the timestamp decides all three ways. -/
theorem C2_timestamp_branch_witness :
    resolveBinaryConflict 100 7 81 3 = Resolution.KeepLocal ∧
    resolveBinaryConflict 100 3 81 7 = Resolution.KeepRemote ∧
    resolveBinaryConflict 100 5 81 5 = Resolution.KeepLocal := by
  have hle : sizeDiffFrac 100 81 ≤ SIZE_DIFF_THRESHOLD := by
    rw [sizeDiffFrac_examples.2.2.2, SIZE_DIFF_THRESHOLD]
    norm_num
  exact ⟨(C2_timestamp_branch 100 81 7 3 hle).1 (by norm_num),
    (C2_timestamp_branch 100 81 3 7 hle).2.1 (by norm_num),
    (C2_timestamp_branch 100 81 5 5 hle).2.2 rfl⟩

/-! ## RecoveryMerger: handleSmartMerge over an abstract git environment -/

/-- A working tree maps relative paths to file content (none means absent). -/
def WorkTree : Type := String → Option String

/-- Per-path observations feeding the smart resolution: local size and mtime
read from disk, remote size via git show and remote commit time via git log,
each falling back to 0 when the path is missing on that side. -/
structure SideInfo where
  localSize : ℕ
  localMtime : ℕ
  remoteSize : ℕ
  remoteMtime : ℕ

/-- The binaryExtensions allowlist of handleSmartMerge step 5. -/
def binaryExtensions : List String := [".pb", ".pbtxt", ".png", ".jpg", ".webp", ".gif"]

/-- JavaScript string endsWith, expressed as a suffix check on the character
lists of the two strings. -/
def strEndsWith (s suffix : String) : Bool :=
  suffix.data.isSuffixOf s.data

/-- Embedding of the classification
binaryExtensions.some(ext => f.endsWith(ext)) used to filter differing files. -/
def isBinaryFile (f : String) : Bool :=
  binaryExtensions.any (fun ext => strEndsWith f ext)

/-- Environment recording the outcome of every underlying git invocation a
single handleSmartMerge run performs, together with the tree-level effect of
the operations whose semantics live outside the source (stash pop, hard
reset, checkout of a remote path). -/
structure MergeEnv where
  rebaseAbortOk : Bool
  mergeAbortOk : Bool
  stashPopOk : Bool
  stashApply : WorkTree → WorkTree
  resetOk : Bool
  headTree : WorkTree
  fetchResult : Except String Unit
  diffResult : Except String (List String)
  info : String → SideInfo
  checkoutOk : String → Bool
  remoteContent : String → Option String
  addResult : Except String Unit
  statusResult : Except String Unit
  commitOk : Bool
  pushResult : Except String Unit

/-- The resolution handleSmartMerge step 6 computes for one differing path,
feeding the observed sizes and times into the shared decision core. -/
def mergeDecision (env : MergeEnv) (f : String) : Resolution :=
  resolveBinaryConflict (env.info f).localSize (env.info f).localMtime
    (env.info f).remoteSize (env.info f).remoteMtime

/-- One iteration of the step 6 loop: when the remote side wins, check out
the remote version of that single path (a checkout failure is caught and
logged, leaving the tree unchanged); when the local side wins, do nothing. -/
def checkoutIfRemoteWins (env : MergeEnv) (t : WorkTree) (f : String) : WorkTree :=
  if mergeDecision env f = Resolution.KeepRemote then
    if env.checkoutOk f then
      fun p => if p = f then env.remoteContent f else t p
    else t
  else t

/-- The whole step 6 loop over the binary-classified differing files. -/
def resolveBinaryFiles (env : MergeEnv) (files : List String) (tree : WorkTree) :
    WorkTree :=
  files.foldl (fun t f => checkoutIfRemoteWins env t f) tree

/-- Result of a successful handleSmartMerge run: the final working tree,
whether the reconciliation commit succeeded, and whether the terminal
force-push succeeded. -/
structure MergeResult where
  tree : WorkTree
  committed : Bool
  pushSucceeded : Bool

/-- Discriminator for Except used to state success of an operation. -/
def exceptOk {α β : Type} : Except α β → Bool
  | Except.ok _ => true
  | Except.error _ => false

/-- Embedding of GitService.handleSmartMerge.  Steps 1 to 3 (abort rebase,
abort merge, remove the index lock, pop the stash, hard reset) and steps 8
and 9 (commit, force push) catch their own failures and only log them; the
fetch of step 4 and the staging and status check of step 7 are not guarded,
so their failures propagate to the caller. -/
def handleSmartMerge (env : MergeEnv) (hasStash : Bool) (tree0 : WorkTree) :
    Except String MergeResult :=
  let tree1 := if hasStash && env.stashPopOk then env.stashApply tree0 else tree0
  let tree2 := if env.resetOk then env.headTree else tree1
  match env.fetchResult with
  | Except.error e => Except.error e
  | Except.ok _ =>
    let differingFiles := match env.diffResult with
      | Except.ok fs => fs
      | Except.error _ => []
    let binaryFiles := differingFiles.filter (fun f => isBinaryFile f)
    let tree3 := resolveBinaryFiles env binaryFiles tree2
    match env.addResult with
    | Except.error e => Except.error e
    | Except.ok _ =>
      match env.statusResult with
      | Except.error e => Except.error e
      | Except.ok _ =>
        Except.ok { tree := tree3, committed := env.commitOk,
                    pushSucceeded := exceptOk env.pushResult }

/-- A concrete recovery environment in which every git operation succeeds
except the terminal force-push, which is rejected by the remote. -/
def pushFailEnv : MergeEnv where
  rebaseAbortOk := true
  mergeAbortOk := true
  stashPopOk := true
  stashApply := fun t => t
  resetOk := true
  headTree := fun _ => none
  fetchResult := Except.ok ()
  diffResult := Except.ok []
  info := fun _ => ⟨0, 0, 0, 0⟩
  checkoutOk := fun _ => true
  remoteContent := fun _ => none
  addResult := Except.ok ()
  statusResult := Except.ok ()
  commitOk := true
  pushResult := Except.error "push failed: remote rejected"

/-- Counterexample to C3: in pushFailEnv the terminal force-push fails, yet
handleSmartMerge returns success, because the failure is caught by the
catch handler of step 9 and only logged, never rethrown. -/
theorem C3_counterexample :
    pushFailEnv.pushResult = Except.error "push failed: remote rejected" ∧
    exceptOk (handleSmartMerge pushFailEnv false (fun _ => none)) = true := by
  exact ⟨rfl, rfl⟩

/-- C3 (amended): a failure of the terminal force-push is caught inside
handleSmartMerge and only logged; the recovery invocation completes
successfully whenever the fetch of step 4 and the staging and status check
of step 7 succeed, regardless of the force-push outcome, so a divergence is
absorbed into a successful outcome even when the force-push fails. -/
theorem C3_force_push_failure_absorbed (env : MergeEnv) (hasStash : Bool)
    (tree0 : WorkTree)
    (hfetch : env.fetchResult = Except.ok ())
    (hadd : env.addResult = Except.ok ())
    (hstatus : env.statusResult = Except.ok ()) :
    exceptOk (handleSmartMerge env hasStash tree0) = true := by
  unfold handleSmartMerge
  rw [hfetch, hadd, hstatus]
  rfl

/-- Witness for the amended C3, at the concrete environment whose force-push
fails. -/
theorem C3_force_push_failure_absorbed_witness :
    exceptOk (handleSmartMerge pushFailEnv true (fun _ => none)) = true :=
  C3_force_push_failure_absorbed pushFailEnv true (fun _ => none) rfl rfl rfl

/-- Pointwise description of one iteration of the step 6 loop. -/
theorem checkoutIfRemoteWins_apply (env : MergeEnv) (t : WorkTree) (f p : String) :
    checkoutIfRemoteWins env t f p =
      if p = f ∧ mergeDecision env f = Resolution.KeepRemote ∧ env.checkoutOk f = true
      then env.remoteContent f else t p := by
  unfold checkoutIfRemoteWins
  by_cases h1 : mergeDecision env f = Resolution.KeepRemote <;>
    by_cases h2 : env.checkoutOk f = true <;>
      by_cases h3 : p = f <;>
        simp [h1, h2, h3]

/-- Pointwise description of the whole step 6 loop: a path ends up holding
the remote content exactly when it occurs in the processed list, the
resolver picked the remote side for it and the checkout succeeded, and it
keeps its previous content otherwise. -/
theorem resolveBinaryFiles_apply (env : MergeEnv) (files : List String)
    (tree : WorkTree) (p : String) :
    resolveBinaryFiles env files tree p =
      if p ∈ files ∧ mergeDecision env p = Resolution.KeepRemote ∧
          env.checkoutOk p = true
      then env.remoteContent p else tree p := by
  induction files generalizing tree with
  | nil => simp [resolveBinaryFiles]
  | cons f fs ih =>
    have hstep : resolveBinaryFiles env (f :: fs) tree =
        resolveBinaryFiles env fs (checkoutIfRemoteWins env tree f) := rfl
    rw [hstep, ih, checkoutIfRemoteWins_apply]
    by_cases h3 : p = f
    · subst h3
      by_cases hq : mergeDecision env p = Resolution.KeepRemote ∧
          env.checkoutOk p = true
      · simp [hq.1, hq.2]
      · by_cases hmem : p ∈ fs <;> simp [hmem, hq]
    · by_cases hmem : p ∈ fs <;> simp [hmem, h3]

/-- C5: frame property of the per-path resolution stage (handleSmartMerge
steps 5 and 6): a path whose working-tree content changes during this stage
must be a differing path with a recognized binary extension for which the
resolver picked the remote side and whose checkout succeeded, and its new
content is the remote version.  Every other path, in particular every
non-binary differing path and every binary differing path where the local
side wins, keeps the content the working tree already holds. -/
theorem C5_resolution_frame (env : MergeEnv) (differingFiles : List String)
    (tree : WorkTree) (p : String)
    (h : resolveBinaryFiles env (differingFiles.filter (fun f => isBinaryFile f))
        tree p ≠ tree p) :
    p ∈ differingFiles ∧ isBinaryFile p = true ∧
      mergeDecision env p = Resolution.KeepRemote ∧ env.checkoutOk p = true ∧
      resolveBinaryFiles env (differingFiles.filter (fun f => isBinaryFile f))
        tree p = env.remoteContent p := by
  rw [resolveBinaryFiles_apply] at h ⊢
  by_cases hc : p ∈ differingFiles.filter (fun f => isBinaryFile f) ∧
      mergeDecision env p = Resolution.KeepRemote ∧ env.checkoutOk p = true
  · have hbin : isBinaryFile p = true := List.of_mem_filter hc.1
    have hmem : p ∈ differingFiles := List.mem_of_mem_filter hc.1
    exact ⟨hmem, hbin, hc.2.1, hc.2.2, by rw [if_pos hc]⟩
  · rw [if_neg hc] at h
    exact absurd rfl h

/-- Concrete environment for the C5 witness: two differing paths, the binary
one having equal sizes on both sides with a newer remote, so the remote
side wins for it. -/
def c5Env : MergeEnv where
  rebaseAbortOk := true
  mergeAbortOk := true
  stashPopOk := true
  stashApply := fun t => t
  resetOk := false
  headTree := fun _ => none
  fetchResult := Except.ok ()
  diffResult := Except.ok ["a.png", "notes.md"]
  info := fun _ => ⟨100, 3, 100, 7⟩
  checkoutOk := fun _ => true
  remoteContent := fun p => if p = "a.png" then some "remote-bytes" else none
  addResult := Except.ok ()
  statusResult := Except.ok ()
  commitOk := true
  pushResult := Except.ok ()

/-- Working tree for the C5 witness. -/
def c5Tree : WorkTree := fun p =>
  if p = "a.png" then some "local-bytes"
  else if p = "notes.md" then some "local-text" else none

/-- In the C5 witness environment the resolver picks the remote side for the
binary path: equal sizes, remote timestamp newer. -/
theorem c5_decision : mergeDecision c5Env "a.png" = Resolution.KeepRemote := by
  show resolveBinaryConflict 100 3 100 7 = Resolution.KeepRemote
  have h0 : sizeDiffFrac 100 100 = 0 := by
    rw [sizeDiffFrac]
    norm_num
  rw [resolveBinaryConflict, h0, SIZE_DIFF_THRESHOLD]
  norm_num

/-- Witness for C5: in the concrete environment the binary path a.png is
rewritten to the remote content, and the change is licensed by exactly the
conditions C5 lists. -/
theorem C5_resolution_frame_witness :
    "a.png" ∈ ["a.png", "notes.md"] ∧ isBinaryFile "a.png" = true ∧
      mergeDecision c5Env "a.png" = Resolution.KeepRemote ∧
      c5Env.checkoutOk "a.png" = true ∧
      resolveBinaryFiles c5Env
        (["a.png", "notes.md"].filter (fun f => isBinaryFile f)) c5Tree "a.png" =
        c5Env.remoteContent "a.png" :=
  C5_resolution_frame c5Env ["a.png", "notes.md"] c5Tree "a.png" (by
    rw [resolveBinaryFiles_apply]
    rw [if_pos ⟨by decide, c5_decision, rfl⟩]
    decide)

/-! ## PullProtocol: GitService.pull -/

/-- JavaScript String.includes, expressed over the character lists. -/
def strIncludes (s pat : String) : Bool :=
  s.data.tails.any (fun t => pat.data.isPrefixOf t)

/-- The single quote character, used in the empty-remote error pattern. -/
def singleQuote : String := String.singleton (Char.ofNat 39)

/-- The message substring by which GitService.pull classifies a rebase-pull
failure as an empty remote. -/
def emptyRemotePattern : String := "couldn" ++ singleQuote ++ "t find remote ref"

/-- The message substrings by which GitService.pull classifies a rebase-pull
failure as divergence, conflict, lock contention or index corruption, in
the order the source tests them. -/
def divergencePatterns : List String :=
  ["divergent", "reconcile", "CONFLICT", "conflict", "Exiting", "unresolved",
   "needs merge", "could not write index", "index.lock"]

/-- Initial git status snapshot of a pull: how many files are changed and
how many carry conflict markers. -/
structure StatusInfo where
  filesCount : ℕ
  conflictedCount : ℕ

/-- Repository operations a pull performs, as recorded in its trace. -/
inductive GitOp
  | statusOp
  | stashPush
  | rebasePull
  | stashPop
  | smartMerge (hasStash : Bool)
deriving DecidableEq, Repr

/-- Environment for one GitService.pull invocation: the outcome of the
status snapshot, of the stash push, and of the rebase pull, plus the
environment used by a recovery run if one is entered. -/
structure PullEnv where
  statusResult : Except String StatusInfo
  stashPushResult : Except String Unit
  rebasePullResult : Except String Unit
  mergeEnv : MergeEnv

/-- The part of GitService.pull after the optional stash push: attempt
pull --rebase; on success pop the stash (pop failures are swallowed); on
failure classify the message, first as empty remote (absorbed), then as
divergence (recovery), otherwise pop the stash and rethrow. -/
def pullRebaseStage (env : PullEnv) (tree0 : WorkTree) (hasChanges : Bool)
    (tr : List GitOp) : List GitOp × Except String Unit :=
  match env.rebasePullResult with
  | Except.ok _ =>
      (tr ++ [GitOp.rebasePull] ++ (if hasChanges then [GitOp.stashPop] else []),
       Except.ok ())
  | Except.error msg =>
      if strIncludes msg emptyRemotePattern then
        (tr ++ [GitOp.rebasePull] ++ (if hasChanges then [GitOp.stashPop] else []),
         Except.ok ())
      else if divergencePatterns.any (fun pat => strIncludes msg pat) then
        (tr ++ [GitOp.rebasePull, GitOp.smartMerge hasChanges],
         Except.map (fun _ => ()) (handleSmartMerge env.mergeEnv hasChanges tree0))
      else
        (tr ++ [GitOp.rebasePull] ++ (if hasChanges then [GitOp.stashPop] else []),
         Except.error msg)

/-- Embedding of GitService.pull: snapshot the status; with pre-existing
conflicted paths jump straight into handleSmartMerge with hasStash = false;
otherwise stash pending changes if any (a stash-push failure propagates)
and run the rebase stage. -/
def pull (env : PullEnv) (tree0 : WorkTree) : List GitOp × Except String Unit :=
  match env.statusResult with
  | Except.error e => ([GitOp.statusOp], Except.error e)
  | Except.ok st =>
    if 0 < st.conflictedCount then
      ([GitOp.statusOp, GitOp.smartMerge false],
       Except.map (fun _ => ()) (handleSmartMerge env.mergeEnv false tree0))
    else if 0 < st.filesCount then
      match env.stashPushResult with
      | Except.error e => ([GitOp.statusOp, GitOp.stashPush], Except.error e)
      | Except.ok _ =>
          pullRebaseStage env tree0 true [GitOp.statusOp, GitOp.stashPush]
    else
      pullRebaseStage env tree0 false [GitOp.statusOp]

/-- C6: a pull whose initial status snapshot reports pre-existing conflicted
paths routes directly into the recovery procedure with hadStash = false:
its trace is exactly the status snapshot followed by the recovery call, so
in particular no stash push and no rebase pull is attempted. -/
theorem C6_preexisting_conflicts_route_to_recovery (env : PullEnv)
    (tree0 : WorkTree) (st : StatusInfo)
    (hst : env.statusResult = Except.ok st)
    (hconf : 0 < st.conflictedCount) :
    (pull env tree0).1 = [GitOp.statusOp, GitOp.smartMerge false] ∧
      GitOp.stashPush ∉ (pull env tree0).1 ∧
      GitOp.rebasePull ∉ (pull env tree0).1 := by
  have h1 : (pull env tree0).1 = [GitOp.statusOp, GitOp.smartMerge false] := by
    unfold pull
    rw [hst]
    simp [hconf]
  refine ⟨h1, ?_, ?_⟩ <;> rw [h1] <;> decide

/-- A recovery environment in which every git operation succeeds and no
path differs. -/
def okMergeEnv : MergeEnv where
  rebaseAbortOk := true
  mergeAbortOk := true
  stashPopOk := true
  stashApply := fun t => t
  resetOk := true
  headTree := fun _ => none
  fetchResult := Except.ok ()
  diffResult := Except.ok []
  info := fun _ => ⟨0, 0, 0, 0⟩
  checkoutOk := fun _ => true
  remoteContent := fun _ => none
  addResult := Except.ok ()
  statusResult := Except.ok ()
  commitOk := true
  pushResult := Except.ok ()

/-- Concrete pull environment for the C6 witness: two changed files and one
pre-existing conflicted path. -/
def c6Env : PullEnv where
  statusResult := Except.ok ⟨2, 1⟩
  stashPushResult := Except.ok ()
  rebasePullResult := Except.ok ()
  mergeEnv := okMergeEnv

/-- Witness for C6 at the concrete environment with a pre-existing
conflicted path. -/
theorem C6_preexisting_conflicts_route_to_recovery_witness :
    (pull c6Env (fun _ => none)).1 = [GitOp.statusOp, GitOp.smartMerge false] ∧
      GitOp.stashPush ∉ (pull c6Env (fun _ => none)).1 ∧
      GitOp.rebasePull ∉ (pull c6Env (fun _ => none)).1 :=
  C6_preexisting_conflicts_route_to_recovery c6Env (fun _ => none) ⟨2, 1⟩ rfl
    (by norm_num)

/-- C7: when the initial status shows no pre-existing conflicts, the stash
push (when one happens) succeeds, and the rebase pull fails with a message
containing the empty-remote pattern, the pull completes without error, its
trace is exactly status, stash push when changes were pending, the rebase
attempt, and a stash pop exactly when a stash was taken; no recovery run
(hence no reconciliation commit and no force-push) occurs. -/
theorem C7_empty_remote_absorbed (env : PullEnv) (tree0 : WorkTree)
    (st : StatusInfo) (msg : String)
    (hst : env.statusResult = Except.ok st)
    (hconf : st.conflictedCount = 0)
    (hstash : env.stashPushResult = Except.ok ())
    (hmsg : env.rebasePullResult = Except.error msg)
    (hpat : strIncludes msg emptyRemotePattern = true) :
    (pull env tree0).2 = Except.ok () ∧
      (pull env tree0).1 = [GitOp.statusOp] ++
        (if 0 < st.filesCount then [GitOp.stashPush] else []) ++
        [GitOp.rebasePull] ++
        (if 0 < st.filesCount then [GitOp.stashPop] else []) ∧
      (∀ b, GitOp.smartMerge b ∉ (pull env tree0).1) := by
  have hstage : ∀ hasChanges tr, pullRebaseStage env tree0 hasChanges tr =
      (tr ++ [GitOp.rebasePull] ++ (if hasChanges then [GitOp.stashPop] else []),
       Except.ok ()) := by
    intro hasChanges tr
    unfold pullRebaseStage
    rw [hmsg]
    simp [hpat]
  have hnoconf : ¬ 0 < st.conflictedCount := by omega
  by_cases hch : 0 < st.filesCount
  · have hp : pull env tree0 =
        ([GitOp.statusOp, GitOp.stashPush, GitOp.rebasePull, GitOp.stashPop],
         Except.ok ()) := by
      unfold pull
      rw [hst, hstash]
      simp [hnoconf, hch, hstage]
    rw [hp]
    refine ⟨rfl, ?_, ?_⟩
    · simp [hch]
    · intro b
      simp
  · have hp : pull env tree0 =
        ([GitOp.statusOp, GitOp.rebasePull], Except.ok ()) := by
      unfold pull
      rw [hst]
      simp [hnoconf, hch, hstage]
    rw [hp]
    refine ⟨rfl, ?_, ?_⟩
    · simp [hch]
    · intro b
      simp

/-- Concrete pull environment for the C7 witness: three pending changes, no
conflicts, and a rebase pull failing with the empty-remote message. -/
def c7Env : PullEnv where
  statusResult := Except.ok ⟨3, 0⟩
  stashPushResult := Except.ok ()
  rebasePullResult := Except.error ("fatal: " ++ emptyRemotePattern ++ " main")
  mergeEnv := okMergeEnv

/-- Witness for C7 at the concrete empty-remote environment. -/
theorem C7_empty_remote_absorbed_witness :
    (pull c7Env (fun _ => none)).2 = Except.ok () ∧
      (pull c7Env (fun _ => none)).1 = [GitOp.statusOp] ++
        (if 0 < (3 : ℕ) then [GitOp.stashPush] else []) ++
        [GitOp.rebasePull] ++
        (if 0 < (3 : ℕ) then [GitOp.stashPop] else []) ∧
      (∀ b, GitOp.smartMerge b ∉ (pull c7Env (fun _ => none)).1) :=
  C7_empty_remote_absorbed c7Env (fun _ => none) ⟨3, 0⟩
    ("fatal: " ++ emptyRemotePattern ++ " main") rfl rfl rfl rfl (by decide)

/-! ## SyncOrchestrator: SyncService.sync (C4, C10) -/

/-- Status values reported to the status bar collaborator. -/
inductive SyncState
  | Pending
  | Syncing
  | Pushing
  | Pulling
  | Synced
  | Error
deriving DecidableEq, Repr

/-- Orchestrator state: the in-flight flag isSyncing and the last reported
status. -/
structure OrchState where
  isSyncing : Bool
  status : SyncState
deriving DecidableEq, Repr

/-- Operations a sync invocation can perform. -/
inductive SyncOp
  | statusUpdate (s : SyncState)
  | pullOp
  | pushWithoutPullOp
deriving DecidableEq, Repr

/-- Environment for one SyncService.sync invocation: the outcome of its pull
step and of its pushWithoutPull step. -/
structure SyncEnv where
  pullResult : Except String Unit
  pushResult : Except String Unit

/-- Embedding of SyncService.sync: return immediately when a sync is already
in flight; otherwise set the flag, report Syncing, pull, push, report
Synced or Error, rethrow any error, and clear the flag in the finally
block on every exit path. -/
def sync (env : SyncEnv) (s : OrchState) :
    OrchState × List SyncOp × Except String Unit :=
  if s.isSyncing then (s, [], Except.ok ())
  else
    match env.pullResult with
    | Except.error e =>
        ({ isSyncing := false, status := SyncState.Error },
         [SyncOp.statusUpdate SyncState.Syncing, SyncOp.pullOp,
          SyncOp.statusUpdate SyncState.Error],
         Except.error e)
    | Except.ok _ =>
        match env.pushResult with
        | Except.error e =>
            ({ isSyncing := false, status := SyncState.Error },
             [SyncOp.statusUpdate SyncState.Syncing, SyncOp.pullOp,
              SyncOp.pushWithoutPullOp, SyncOp.statusUpdate SyncState.Error],
             Except.error e)
        | Except.ok _ =>
            ({ isSyncing := false, status := SyncState.Synced },
             [SyncOp.statusUpdate SyncState.Syncing, SyncOp.pullOp,
              SyncOp.pushWithoutPullOp, SyncOp.statusUpdate SyncState.Synced],
             Except.ok ())

/-- C4: a sync issued while another one is in flight returns immediately: it
performs no repository operation at all (no pull, no file copy, no stage,
no commit, no push), reports no status transition, and leaves the
orchestrator state unchanged. -/
theorem C4_concurrent_sync_noop (env : SyncEnv) (s : OrchState)
    (h : s.isSyncing = true) :
    sync env s = (s, [], Except.ok ()) := by
  unfold sync
  rw [h]
  rfl

/-- Witness for C4 at a concrete in-flight state. -/
theorem C4_concurrent_sync_noop_witness :
    sync ⟨Except.ok (), Except.ok ()⟩ ⟨true, SyncState.Syncing⟩ =
      (⟨true, SyncState.Syncing⟩, [], Except.ok ()) :=
  C4_concurrent_sync_noop ⟨Except.ok (), Except.ok ()⟩
    ⟨true, SyncState.Syncing⟩ rfl

/-- C10: a sync that actually starts (the in-flight flag was clear at entry)
leaves the flag clear on every exit path, whether the pull and push steps
succeed or throw, so a failed sync never leaves the orchestrator blocked
and a subsequent sync is not treated as concurrent. -/
theorem C10_flag_cleared_on_every_exit (env : SyncEnv) (s : OrchState)
    (h : s.isSyncing = false) :
    (sync env s).1.isSyncing = false := by
  obtain ⟨pr, qr⟩ := env
  cases pr <;> cases qr <;> simp [sync, h]

/-- Witness for C10 at a concrete environment whose pull fails. -/
theorem C10_flag_cleared_on_every_exit_witness :
    (sync ⟨Except.error "network down", Except.ok ()⟩
      ⟨false, SyncState.Pending⟩).1.isSyncing = false :=
  C10_flag_cleared_on_every_exit ⟨Except.error "network down", Except.ok ()⟩
    ⟨false, SyncState.Pending⟩ rfl

/-! ## Push pipeline: copy, stage, commit, push (C8) -/

/-- Content state of the sync repository: the files at HEAD and the working
tree. -/
structure RepoState where
  head : WorkTree
  tree : WorkTree

/-- Embedding of SyncService.copyFilesToSyncRepo: every syncable relative
path that exists in the source directory is copied over the working tree,
in list order; paths missing from the source are skipped. -/
def copyFilesToSyncRepo (filesToSync : List String) (src : WorkTree)
    (tree : WorkTree) : WorkTree :=
  filesToSync.foldl (fun t p =>
    match src p with
    | some c => fun q => if q = p then some c else t q
    | none => t) tree

/-- Embedding of the status.isClean() check of GitService.commit, observed
through the given list of paths git examines: the working tree agrees
with HEAD everywhere. -/
def isCleanOn (paths : List String) (r : RepoState) : Bool :=
  paths.all (fun p => r.tree p == r.head p)

/-- Embedding of GitService.commit: return null without committing when the
status is clean, otherwise commit everything, making HEAD equal to the
working tree. -/
def commit (gitPaths : List String) (r : RepoState) : RepoState × Option ℕ :=
  if isCleanOn gitPaths r then (r, none)
  else ({ head := r.tree, tree := r.tree }, some 1)

/-- Result of one pushWithoutPull run: the repository state, the commit hash
returned by commit (none when nothing was committed), and whether a push
was performed. -/
structure PushOutcome where
  state : RepoState
  commitHash : Option ℕ
  pushed : Bool

/-- Embedding of SyncService.pushWithoutPull: copy the syncable files into
the working tree, stage everything, commit, and push exactly when the
commit created new history. -/
def pushWithoutPull (gitPaths filesToSync : List String) (src : WorkTree)
    (r : RepoState) : PushOutcome :=
  let tree1 := copyFilesToSyncRepo filesToSync src r.tree
  let c := commit gitPaths { head := r.head, tree := tree1 }
  { state := c.1, commitHash := c.2, pushed := c.2.isSome }

/-- Embedding of the content effect of SyncService.sync: the pull step first
transforms the working tree, then pushWithoutPull runs. -/
def syncContent (pullEffect : WorkTree → WorkTree)
    (gitPaths filesToSync : List String) (src : WorkTree) (r : RepoState) :
    PushOutcome :=
  pushWithoutPull gitPaths filesToSync src
    { head := r.head, tree := pullEffect r.tree }

/-- Pointwise description of copyFilesToSyncRepo: a path listed for sync and
present in the source ends up holding the source content, every other path
keeps its previous content. -/
theorem copyFilesToSyncRepo_apply (filesToSync : List String)
    (src tree : WorkTree) (p : String) :
    copyFilesToSyncRepo filesToSync src tree p =
      if p ∈ filesToSync ∧ (src p).isSome then src p else tree p := by
  induction filesToSync generalizing tree with
  | nil => simp [copyFilesToSyncRepo]
  | cons f fs ih =>
    have hstep : copyFilesToSyncRepo (f :: fs) src tree =
        copyFilesToSyncRepo fs src (match src f with
          | some c => fun q => if q = f then some c else tree q
          | none => tree) := rfl
    rw [hstep, ih]
    by_cases h3 : p = f
    · subst h3
      cases hsf : src p with
      | some c => by_cases hmem : p ∈ fs <;> simp [hmem, hsf]
      | none => by_cases hmem : p ∈ fs <;> simp [hmem, hsf]
    · cases hsf : src f with
      | some c => by_cases hmem : p ∈ fs <;> simp [hmem, hsf, h3]
      | none => by_cases hmem : p ∈ fs <;> simp [hmem, hsf, h3]

/-- Copying the same source files twice is the same as copying them once. -/
theorem copyFilesToSyncRepo_idem (filesToSync : List String)
    (src tree : WorkTree) :
    copyFilesToSyncRepo filesToSync src
        (copyFilesToSyncRepo filesToSync src tree) =
      copyFilesToSyncRepo filesToSync src tree := by
  funext p
  rw [copyFilesToSyncRepo_apply, copyFilesToSyncRepo_apply]
  by_cases h : p ∈ filesToSync ∧ (src p).isSome <;> simp [h]

/-- A state whose tree and HEAD coincide is clean. -/
theorem isCleanOn_same (gitPaths : List String) (t : WorkTree) :
    isCleanOn gitPaths { head := t, tree := t } = true := by
  simp [isCleanOn]

/-- After one pushWithoutPull run the repository state is stable: copying
the same source files again does not change the tree, and the tree is clean
against HEAD. -/
theorem pushWithoutPull_stable (gitPaths filesToSync : List String)
    (src : WorkTree) (r : RepoState) :
    copyFilesToSyncRepo filesToSync src
        (pushWithoutPull gitPaths filesToSync src r).state.tree =
      (pushWithoutPull gitPaths filesToSync src r).state.tree ∧
    isCleanOn gitPaths (pushWithoutPull gitPaths filesToSync src r).state = true := by
  unfold pushWithoutPull commit
  by_cases hclean : isCleanOn gitPaths
      { head := r.head, tree := copyFilesToSyncRepo filesToSync src r.tree } = true
  · simp [hclean, copyFilesToSyncRepo_idem]
  · simp [hclean, copyFilesToSyncRepo_idem, isCleanOn_same]

/-- A pushWithoutPull run on a stable state commits nothing and performs no
push. -/
theorem pushWithoutPull_clean_noop (gitPaths filesToSync : List String)
    (src : WorkTree) (r : RepoState)
    (hcopy : copyFilesToSyncRepo filesToSync src r.tree = r.tree)
    (hclean : isCleanOn gitPaths r = true) :
    (pushWithoutPull gitPaths filesToSync src r).commitHash = none ∧
    (pushWithoutPull gitPaths filesToSync src r).pushed = false := by
  unfold pushWithoutPull commit
  simp [hcopy, hclean]

/-- C8: running the sync content pipeline twice in succession with no
intervening changes (the same source files, and a second pull that brings
nothing new to the tree) leaves the second run with a clean working tree at
its commit step: its commit returns null and no push is performed. -/
theorem C8_second_sync_commits_nothing (gitPaths filesToSync : List String)
    (src : WorkTree) (r : RepoState)
    (pullEffect1 pullEffect2 : WorkTree → WorkTree)
    (h2 : ∀ t, pullEffect2 t = t) :
    (syncContent pullEffect2 gitPaths filesToSync src
        (syncContent pullEffect1 gitPaths filesToSync src r).state).commitHash =
      none ∧
    (syncContent pullEffect2 gitPaths filesToSync src
        (syncContent pullEffect1 gitPaths filesToSync src r).state).pushed =
      false := by
  have hstable := pushWithoutPull_stable gitPaths filesToSync src
    { head := r.head, tree := pullEffect1 r.tree }
  have heq : syncContent pullEffect2 gitPaths filesToSync src
      (syncContent pullEffect1 gitPaths filesToSync src r).state =
      pushWithoutPull gitPaths filesToSync src
        (pushWithoutPull gitPaths filesToSync src
          { head := r.head, tree := pullEffect1 r.tree }).state := by
    unfold syncContent
    rw [h2]
  rw [heq]
  exact pushWithoutPull_clean_noop gitPaths filesToSync src _ hstable.1 hstable.2

/-- Source directory for the C8 witness. -/
def c8Src : WorkTree := fun p => if p = "a.md" then some "text" else none

/-- Witness for C8 at a concrete one-file repository with identity pulls. -/
theorem C8_second_sync_commits_nothing_witness :
    (syncContent (fun t => t) ["a.md"] ["a.md"] c8Src
        (syncContent (fun t => t) ["a.md"] ["a.md"] c8Src
          ⟨fun _ => none, fun _ => none⟩).state).commitHash = none ∧
    (syncContent (fun t => t) ["a.md"] ["a.md"] c8Src
        (syncContent (fun t => t) ["a.md"] ["a.md"] c8Src
          ⟨fun _ => none, fun _ => none⟩).state).pushed = false :=
  C8_second_sync_commits_nothing ["a.md"] ["a.md"] c8Src
    ⟨fun _ => none, fun _ => none⟩ (fun t => t) (fun t => t) (fun _ => rfl)

/-! ## Auto-sync timer and countdown (C9) -/

/-- The auto-sync interval: 5 minutes in milliseconds. -/
def AUTO_SYNC_INTERVAL_MS : ℤ := 5 * 60 * 1000

/-- Timer state of SyncService: the two interval handles (true while
scheduled), the absolute next fire time in milliseconds, and whether a
countdown callback is registered. -/
structure TimerState where
  autoSyncTimer : Bool
  countdownInterval : Bool
  nextSyncTime : ℤ
  callbackRegistered : Bool
deriving DecidableEq, Repr

/-- Events emitted to the countdown callback. -/
inductive TimerEvent
  | countdownEmit (seconds : ℤ)
deriving DecidableEq, Repr

/-- The integer computation Math.max(0, Math.ceil((nextSyncTime - now) / 1000))
performed by the countdown ticker, with the ceiling of the exact quotient
expressed through floor division on integers. -/
def countdownSecondsImpl (nextSyncTime now : ℤ) : ℤ :=
  max 0 (-((-(nextSyncTime - now)) / 1000))

/-- The formula of the design document: max(0, nextFire - now) rounded up to
whole seconds. -/
def countdownSecondsSpec (nextFire now : ℤ) : ℤ :=
  max 0 ⌈(((nextFire - now : ℤ)) : ℚ) / 1000⌉

/-- Body of the countdown setInterval handler: compute secondsLeft and emit
it to the callback when one is registered. -/
def countdownTick (st : TimerState) (now : ℤ) : List TimerEvent :=
  if st.callbackRegistered then
    [TimerEvent.countdownEmit (countdownSecondsImpl st.nextSyncTime now)]
  else []

/-- Embedding of SyncService.stopAutoSync: clear both interval handles,
reset the next fire time to 0, and emit a single countdown value 0 to the
callback when one is registered. -/
def stopAutoSync (st : TimerState) : TimerState × List TimerEvent :=
  ({ autoSyncTimer := false, countdownInterval := false, nextSyncTime := 0,
     callbackRegistered := st.callbackRegistered },
   if st.callbackRegistered then [TimerEvent.countdownEmit 0] else [])

/-- Embedding of SyncService.startAutoSync: stop any existing timers, set
the next fire time one interval ahead of now, and start both tickers. -/
def startAutoSync (st : TimerState) (now : ℤ) : TimerState × List TimerEvent :=
  ({ autoSyncTimer := true, countdownInterval := true,
     nextSyncTime := now + AUTO_SYNC_INTERVAL_MS,
     callbackRegistered := st.callbackRegistered },
   (stopAutoSync st).2)

/-- Negated floor division by 1000 computes the ceiling of the exact
quotient by 1000. -/
theorem neg_ediv_neg_eq_ceil (x : ℤ) : -((-x) / 1000) = ⌈((x : ℚ)) / 1000⌉ := by
  have h := Rat.floor_intCast_div_natCast (-x) 1000
  have hcast : (((-x : ℤ)) : ℚ) / ((1000 : ℕ) : ℚ) = -((x : ℚ) / 1000) := by
    push_cast
    ring
  rw [hcast] at h
  rw [show ⌈((x : ℚ)) / 1000⌉ = -⌊-(((x : ℚ)) / 1000)⌋ by rw [Int.floor_neg, neg_neg]]
  rw [h]
  norm_num

/-- The ticker computation agrees with the design formula. -/
theorem countdownSecondsImpl_eq_spec (nextFire now : ℤ) :
    countdownSecondsImpl nextFire now = countdownSecondsSpec nextFire now := by
  rw [countdownSecondsImpl, countdownSecondsSpec, neg_ediv_neg_eq_ceil]

/-- C9: while the countdown ticker is running, every callback invocation
reports max(0, nextFire - now) rounded up to whole seconds; and
stopAutoSync cancels both the sync timer and the countdown ticker and
reports a countdown value of 0 exactly once to the registered callback. -/
theorem C9_countdown_and_stop :
    (∀ (st : TimerState) (now : ℤ), st.countdownInterval = true →
        st.callbackRegistered = true →
        countdownTick st now =
          [TimerEvent.countdownEmit (countdownSecondsSpec st.nextSyncTime now)]) ∧
    (∀ st : TimerState, st.callbackRegistered = true →
        (stopAutoSync st).1.autoSyncTimer = false ∧
        (stopAutoSync st).1.countdownInterval = false ∧
        (stopAutoSync st).2 = [TimerEvent.countdownEmit 0]) := by
  constructor
  · intro st now _ hcb
    rw [countdownTick, if_pos hcb, countdownSecondsImpl_eq_spec]
  · intro st hcb
    exact ⟨rfl, rfl, by rw [stopAutoSync]; simp [hcb]⟩

/-- Witness for C9 at a concrete running timer state. -/
theorem C9_countdown_and_stop_witness :
    countdownTick ⟨true, true, 1500, true⟩ 0 =
      [TimerEvent.countdownEmit (countdownSecondsSpec 1500 0)] ∧
    (stopAutoSync ⟨true, true, 1500, true⟩).1.autoSyncTimer = false ∧
    (stopAutoSync ⟨true, true, 1500, true⟩).1.countdownInterval = false ∧
    (stopAutoSync ⟨true, true, 1500, true⟩).2 = [TimerEvent.countdownEmit 0] :=
  ⟨C9_countdown_and_stop.1 ⟨true, true, 1500, true⟩ 0 rfl rfl,
   C9_countdown_and_stop.2 ⟨true, true, 1500, true⟩ rfl⟩
